import Mathlib

/-!
Verification of the image-resource core in `icd/intel/img.c` (XGL intel
driver).  The file shallowly embeds the functions of that translation unit:
`intel_img_create`, `intel_img_destroy`, `img_get_info`,
`xglGetImageSubresourceInfo`, `xglSetFastClearColor`.

External collaborators (`intel_layout_init`, `intel_base_create`,
`icd_format_get_class`, the `intel_layout_get_slice_*` family, `u_align`)
are declared in headers outside this translation unit; they are modelled as
abstract parameters of the embedding (function-valued fields of an
environment record) or, where the spec fixes their behaviour, as
definitions marked `Modelled from the spec`.  Machine integers are embedded
as `Nat`; the one place where 32-bit overflow matters (the
`bo_stride * bo_height` product) is treated explicitly in the capacity
theorem, which shows the product of a successfully created image is below
`2^32`, so the C multiplication is exact.
-/

/-- Status codes returned by the entry points of `img.c`
(`XGL_RESULT` values actually occurring in the file). -/
inductive XGL_RESULT where
  | XGL_SUCCESS
  | XGL_ERROR_OUT_OF_MEMORY
  | XGL_ERROR_INVALID_MEMORY_SIZE
  | XGL_ERROR_INVALID_VALUE
  | XGL_ERROR_UNAVAILABLE
deriving DecidableEq, Repr

/-- Kind of auxiliary surface recorded in a layout
(`INTEL_LAYOUT_AUX_*`; the enum lives in the layout header, outside this
translation unit — only the comparison against `NONE` matters in `img.c`). -/
inductive intel_layout_aux where
  | INTEL_LAYOUT_AUX_NONE
  | INTEL_LAYOUT_AUX_HIZ
  | INTEL_LAYOUT_AUX_MCS
deriving DecidableEq, Repr

/-- Modelled from the spec: the `SurfaceLayout` produced by the Layout
Provider (`struct intel_layout`, declared in a header outside this
translation unit).  Only the fields read by `img.c` are modelled; sizes are
unbounded naturals, the theorems establish the bounds where the C width
matters. -/
structure intel_layout where
  bo_stride : Nat
  bo_height : Nat
  aux : intel_layout_aux
  aux_stride : Nat
  aux_height : Nat
  separate_stencil : Bool
deriving DecidableEq, Repr

/-- The fields of `XGL_IMAGE_CREATE_INFO` read by `img.c`.  `tiling` is
modelled by the flag `tiling = XGL_LINEAR_TILING`; formats are opaque
naturals. -/
structure XGL_IMAGE_CREATE_INFO where
  imageType : Nat
  extent_depth : Nat
  mipLevels : Nat
  arraySize : Nat
  usage : Nat
  tiling_is_linear : Bool
  format : Nat
  samples : Nat
deriving DecidableEq, Repr

/-- The stencil-only format assigned to the derived stencil description
(`XGL_FMT_S8_UINT`; the numeric enum value lives in the API header outside
this translation unit — only its identity matters). -/
def XGL_FMT_S8_UINT : Nat := 127

/-- `XGL_IMAGE_FORMAT_CLASS_LINEAR` (numeric enum value from the API header
outside this translation unit — only its identity matters). -/
def XGL_IMAGE_FORMAT_CLASS_LINEAR : Nat := 1

/-- `struct intel_img`: the fields of the resource object touched by
`img.c`.  Floats (`clear_color`, `clear_depth`) are carried as opaque
32-bit patterns, since `img.c` only stores them. -/
structure intel_img where
  type : Nat
  depth : Nat
  mip_levels : Nat
  array_size : Nat
  usage : Nat
  format_class : Nat
  samples : Nat
  layout : intel_layout
  total_size : Nat
  aux_offset : Nat
  s8_offset : Nat
  s8_layout : Option intel_layout
  clear_color : Nat × Nat × Nat × Nat
  clear_depth : Nat
  x11_prime_fd : Int
deriving DecidableEq, Repr

/-- `static const size_t intel_max_resource_size = 1u << 31`. -/
def intel_max_resource_size : Nat := 2 ^ 31

/-- Modelled from the spec: `u_align(v, a)` (utility header outside this
translation unit) rounds `v` up to the next multiple of the alignment `a`;
`img.c` only uses it with `a = 4096`. -/
def u_align (v a : Nat) : Nat := (v + a - 1) / a * a

/-- Environment of one `intel_img_create` call: the creation arguments plus
the behaviour of the external collaborators.  `layout_init` stands for
`intel_layout_init` (a pure function of the description and the scanout
flag), `format_get_class` for `icd_format_get_class`, and the two `Bool`
fields record whether the two allocations made by `intel_img_create`
(`intel_base_create`, and `intel_alloc` for the stencil layout) succeed. -/
structure CreateEnv where
  info : XGL_IMAGE_CREATE_INFO
  scanout : Bool
  layout_init : XGL_IMAGE_CREATE_INFO → Bool → intel_layout
  format_get_class : Nat → Nat
  base_alloc_ok : Bool
  s8_alloc_ok : Bool

/-- The primary layout derived for the call: `intel_layout_init(layout,
dev, info, scanout)` at line 129. -/
def layout_of (env : CreateEnv) : intel_layout :=
  env.layout_init env.info env.scanout

/-- Modelled from the spec: `intel_base_create` (object header outside this
translation unit) returns a fresh object whose fields are in their default
state — zero clear metadata, no stencil layout, platform hand-off state
not shared. -/
def intel_base_create_img : intel_img :=
  { type := 0, depth := 0, mip_levels := 0, array_size := 0, usage := 0,
    format_class := 0, samples := 0,
    layout := { bo_stride := 0, bo_height := 0,
                aux := .INTEL_LAYOUT_AUX_NONE, aux_stride := 0,
                aux_height := 0, separate_stencil := false },
    total_size := 0, aux_offset := 0, s8_offset := 0, s8_layout := none,
    clear_color := (0, 0, 0, 0), clear_depth := 0, x11_prime_fd := -1 }

/-- The image after the field assignments of lines 119-129: description
fields copied, format class chosen by tiling, primary layout initialized. -/
def img_after_init (env : CreateEnv) : intel_img :=
  { intel_base_create_img with
    type := env.info.imageType
    depth := env.info.extent_depth
    mip_levels := env.info.mipLevels
    array_size := env.info.arraySize
    usage := env.info.usage
    format_class :=
      if env.info.tiling_is_linear then XGL_IMAGE_FORMAT_CLASS_LINEAR
      else env.format_get_class env.info.format
    samples := env.info.samples
    layout := layout_of env }

/-- Line 138: `img->total_size = img->layout.bo_stride *
img->layout.bo_height`. -/
def img_with_total (env : CreateEnv) : intel_img :=
  { img_after_init env with
    total_size := (layout_of env).bo_stride * (layout_of env).bo_height }

/-- Lines 140-144: if the layout carries an auxiliary surface, place it at
the 4096-aligned end of the primary region and grow the total size. -/
def img_with_aux (env : CreateEnv) : intel_img :=
  if (layout_of env).aux ≠ .INTEL_LAYOUT_AUX_NONE then
    { img_with_total env with
      aux_offset := u_align (img_with_total env).total_size 4096
      total_size := u_align (img_with_total env).total_size 4096 +
        (layout_of env).aux_stride * (layout_of env).aux_height }
  else img_with_total env

/-- Lines 156-157: the derived stencil description — the input description
with the format replaced by `XGL_FMT_S8_UINT`. -/
def s8_info (env : CreateEnv) : XGL_IMAGE_CREATE_INFO :=
  { env.info with format := XGL_FMT_S8_UINT }

/-- The separately tiled stencil layout: `intel_layout_init(img->s8_layout,
dev, &s8_info, scanout)` at line 160. -/
def s8_layout_of (env : CreateEnv) : intel_layout :=
  env.layout_init (s8_info env) env.scanout

/-- Lines 146-165 on the success path: record the stencil layout, place it
at the 4096-aligned end of the aux-adjusted region and grow the total
size. -/
def img_with_s8 (env : CreateEnv) : intel_img :=
  { img_with_aux env with
    s8_layout := some (s8_layout_of env)
    s8_offset := u_align (img_with_aux env).total_size 4096
    total_size := u_align (img_with_aux env).total_size 4096 +
      (s8_layout_of env).bo_stride * (s8_layout_of env).bo_height }

/-- What one `intel_img_destroy` call frees: the platform hand-off state
(the `x11_prime_fd >= 0` branch), the stencil layout (freed only when the
pointer is non-null, lines 188-189), and the base object (line 191,
unconditionally). -/
structure DestroyEffect where
  closed_handoff : Bool
  freed_s8 : Bool
  freed_base : Bool
deriving DecidableEq, Repr

/-- `intel_img_destroy` (lines 179-192), as the set of releases it
performs on the given image. -/
def intel_img_destroy (img : intel_img) : DestroyEffect :=
  { closed_handoff := decide (0 ≤ img.x11_prime_fd)
    freed_s8 := img.s8_layout.isSome
    freed_base := true }

/-- Outcome of one `intel_img_create` call: the returned status, the value
stored through `img_ret` (`none` = not written), and which of the two
allocations made by the call are still live when it returns. -/
structure CreateResult where
  status : XGL_RESULT
  img_ret : Option intel_img
  live_base : Bool
  live_s8 : Bool
deriving DecidableEq, Repr

/-- `intel_img_create` (lines 104-177).  `Except.error ()` marks the one
undefined execution: the division `intel_max_resource_size /
layout->bo_height` at line 131 with `bo_height = 0` (C division by zero).
Every error return first runs `intel_img_destroy` on the partial image, as
the source does. -/
def intel_img_create (env : CreateEnv) : Except Unit CreateResult :=
  if env.base_alloc_ok = false then
    .ok { status := .XGL_ERROR_OUT_OF_MEMORY, img_ret := none,
          live_base := false, live_s8 := false }
  else if (layout_of env).bo_height = 0 then
    .error ()
  else if intel_max_resource_size / (layout_of env).bo_height <
      (layout_of env).bo_stride then
    .ok { status := .XGL_ERROR_INVALID_MEMORY_SIZE, img_ret := none,
          live_base := !(intel_img_destroy (img_after_init env)).freed_base,
          live_s8 := false }
  else if (layout_of env).separate_stencil then
    if env.s8_alloc_ok = false then
      .ok { status := .XGL_ERROR_OUT_OF_MEMORY, img_ret := none,
            live_base := !(intel_img_destroy (img_with_aux env)).freed_base,
            live_s8 := false }
    else
      .ok { status := .XGL_SUCCESS, img_ret := some (img_with_s8 env),
            live_base := true, live_s8 := true }
  else
    .ok { status := .XGL_SUCCESS, img_ret := some (img_with_aux env),
          live_base := true, live_s8 := false }

/-- `XGL_INFO_TYPE_MEMORY_REQUIREMENTS` (enum value from the API header
outside this translation unit; only the three-way distinction below
matters). -/
def XGL_INFO_TYPE_MEMORY_REQUIREMENTS : Nat := 0

/-- `XGL_INFO_TYPE_IMAGE_MEMORY_REQUIREMENTS`. -/
def XGL_INFO_TYPE_IMAGE_MEMORY_REQUIREMENTS : Nat := 1

/-- `XGL_INFO_TYPE_BUFFER_MEMORY_REQUIREMENTS`. -/
def XGL_INFO_TYPE_BUFFER_MEMORY_REQUIREMENTS : Nat := 2

/-- `XGL_INFO_TYPE_SUBRESOURCE_LAYOUT` (value of the
`XGL_SUBRESOURCE_INFO_TYPE` enum, API header outside this translation
unit). -/
def XGL_INFO_TYPE_SUBRESOURCE_LAYOUT : Nat := 0

/-- Memory types named in `img_get_info` (`XGL_MEMORY_TYPE`). -/
inductive XGL_MEMORY_TYPE where
  | XGL_MEMORY_TYPE_BUFFER
  | XGL_MEMORY_TYPE_IMAGE
deriving DecidableEq, Repr

/-- `XGL_MEMORY_REQUIREMENTS` as filled by `img_get_info`. -/
structure XGL_MEMORY_REQUIREMENTS where
  size : Nat
  alignment : Nat
  memType : XGL_MEMORY_TYPE
deriving DecidableEq, Repr

/-- `XGL_IMAGE_MEMORY_REQUIREMENTS` as filled by `img_get_info`. -/
structure XGL_IMAGE_MEMORY_REQUIREMENTS where
  usage : Nat
  formatClass : Nat
  samples : Nat
deriving DecidableEq, Repr

/-- `XGL_BUFFER_MEMORY_REQUIREMENTS` as filled by `img_get_info`. -/
structure XGL_BUFFER_MEMORY_REQUIREMENTS where
  usage : Nat
deriving DecidableEq, Repr

/-- The structure written into the caller buffer by one `img_get_info`
call, tagged by which case filled it. -/
inductive ImgInfoData where
  | memReq (r : XGL_MEMORY_REQUIREMENTS)
  | imgReq (r : XGL_IMAGE_MEMORY_REQUIREMENTS)
  | bufReq (r : XGL_BUFFER_MEMORY_REQUIREMENTS)
deriving DecidableEq, Repr

/-- Observable outcome of an info query: the status, the value written
through the size pointer (`none` = not written), and the value written into
the caller buffer (`none` = not written). -/
structure InfoQueryOut where
  ret : XGL_RESULT
  dataSize : Option Nat
  data : Option ImgInfoData
deriving DecidableEq, Repr

/-- `sizeof(XGL_MEMORY_REQUIREMENTS)` (platform constant; its exact value
is irrelevant to the claims). -/
def sizeof_XGL_MEMORY_REQUIREMENTS : Nat := 24

/-- `sizeof(XGL_IMAGE_MEMORY_REQUIREMENTS)`. -/
def sizeof_XGL_IMAGE_MEMORY_REQUIREMENTS : Nat := 12

/-- `sizeof(XGL_BUFFER_MEMORY_REQUIREMENTS)`. -/
def sizeof_XGL_BUFFER_MEMORY_REQUIREMENTS : Nat := 4

/-- `sizeof(XGL_SUBRESOURCE_LAYOUT)`. -/
def sizeof_XGL_SUBRESOURCE_LAYOUT : Nat := 32

/-- `img_get_info` (lines 51-102).  `base_get_info` stands for the
`intel_base_get_info` fallback of the default case (outside this
translation unit); `data_null` records whether the caller passed a null
output buffer.  Each recognized case writes the size first and only then
bails out on a null buffer, as the source does. -/
def img_get_info (base_get_info : Nat → Bool → InfoQueryOut)
    (img : intel_img) (type : Nat) (data_null : Bool) : InfoQueryOut :=
  if type = XGL_INFO_TYPE_MEMORY_REQUIREMENTS then
    if data_null then
      { ret := .XGL_SUCCESS, dataSize := some sizeof_XGL_MEMORY_REQUIREMENTS,
        data := none }
    else
      { ret := .XGL_SUCCESS, dataSize := some sizeof_XGL_MEMORY_REQUIREMENTS,
        data := some (.memReq
          { size := img.total_size, alignment := 4096,
            memType :=
              if img.format_class = XGL_IMAGE_FORMAT_CLASS_LINEAR then
                .XGL_MEMORY_TYPE_BUFFER
              else .XGL_MEMORY_TYPE_IMAGE }) }
  else if type = XGL_INFO_TYPE_IMAGE_MEMORY_REQUIREMENTS then
    if data_null then
      { ret := .XGL_SUCCESS,
        dataSize := some sizeof_XGL_IMAGE_MEMORY_REQUIREMENTS, data := none }
    else
      { ret := .XGL_SUCCESS,
        dataSize := some sizeof_XGL_IMAGE_MEMORY_REQUIREMENTS,
        data := some (.imgReq
          { usage := img.usage, formatClass := img.format_class,
            samples := img.samples }) }
  else if type = XGL_INFO_TYPE_BUFFER_MEMORY_REQUIREMENTS then
    if data_null then
      { ret := .XGL_SUCCESS,
        dataSize := some sizeof_XGL_BUFFER_MEMORY_REQUIREMENTS, data := none }
    else
      { ret := .XGL_SUCCESS,
        dataSize := some sizeof_XGL_BUFFER_MEMORY_REQUIREMENTS,
        data := some (.bufReq { usage := img.usage }) }
  else base_get_info type data_null

/-- The layout-provider operations used by `xglGetImageSubresourceInfo`
(`intel_layout_get_slice_pos`, `intel_layout_pos_to_mem`,
`intel_layout_mem_to_linear`, `intel_layout_get_slice_size`,
`intel_layout_get_slice_stride`), all outside this translation unit and
treated as pure functions of the layout and their arguments. -/
structure LayoutOps where
  get_slice_pos : intel_layout → Nat → Nat → Nat × Nat
  pos_to_mem : intel_layout → Nat → Nat → Nat × Nat
  mem_to_linear : intel_layout → Nat → Nat → Nat
  get_slice_size : intel_layout → Nat → Nat
  get_slice_stride : intel_layout → Nat → Nat

/-- `XGL_SUBRESOURCE_LAYOUT` as filled by `xglGetImageSubresourceInfo`. -/
structure XGL_SUBRESOURCE_LAYOUT where
  offset : Nat
  size : Nat
  rowPitch : Nat
  depthPitch : Nat
deriving DecidableEq, Repr

/-- Observable outcome of one subresource query: status, the value written
through `pDataSize` (`none` = not written), and the structure written into
`pData` (`none` = not written). -/
structure SubresQueryOut where
  ret : XGL_RESULT
  dataSize : Option Nat
  data : Option XGL_SUBRESOURCE_LAYOUT
deriving DecidableEq, Repr

/-- `xglGetImageSubresourceInfo` (lines 214-252).  The image is returned
alongside the outputs to make explicit that the call never mutates it.
`pData_null` records whether the caller passed a null output buffer. -/
def xglGetImageSubresourceInfo (ops : LayoutOps) (img : intel_img)
    (mipLevel arraySlice : Nat) (infoType : Nat) (pData_null : Bool) :
    SubresQueryOut × intel_img :=
  if infoType = XGL_INFO_TYPE_SUBRESOURCE_LAYOUT then
    let p := ops.get_slice_pos img.layout mipLevel arraySlice
    let m := ops.pos_to_mem img.layout p.1 p.2
    if pData_null then
      ({ ret := .XGL_SUCCESS,
         dataSize := some sizeof_XGL_SUBRESOURCE_LAYOUT, data := none }, img)
    else
      ({ ret := .XGL_SUCCESS,
         dataSize := some sizeof_XGL_SUBRESOURCE_LAYOUT,
         data := some
           { offset := ops.mem_to_linear img.layout m.1 m.2,
             size := ops.get_slice_size img.layout mipLevel,
             rowPitch := img.layout.bo_stride,
             depthPitch := ops.get_slice_stride img.layout mipLevel } }, img)
  else
    ({ ret := .XGL_ERROR_INVALID_VALUE, dataSize := none, data := none }, img)

/-- The `n` bytes of a byte-addressed memory starting at `addr`. -/
def read_bytes (mem : Nat → Nat) (addr n : Nat) : List Nat :=
  (List.range n).map fun i => mem (addr + i)

/-- The value of a little-endian 64-bit pointer stored at `addr`. -/
def le64 (mem : Nat → Nat) (addr : Nat) : Nat :=
  ((List.range 8).map fun i => mem (addr + i) * 256 ^ i).sum

/-- `xglSetFastClearColor` (lines 254-263), at the byte level.  The
parameter `const float color[4]` decays to a pointer, so the expression
`&color` in `memcpy(img->clear_color, &color, sizeof(float) * 4)` is the
address of the pointer variable itself; the call therefore returns
`XGL_SUCCESS` and stores into `clear_color` the 16 bytes found at that
address (`addr_of_color_var`), not the 16 bytes of the caller array the
pointer points to. -/
def xglSetFastClearColor (mem : Nat → Nat) (addr_of_color_var : Nat) :
    XGL_RESULT × List Nat :=
  (.XGL_SUCCESS, read_bytes mem addr_of_color_var 16)

/-- A concrete call frame for `xglSetFastClearColor`: the pointer variable
sits at address 0 and holds (little-endian) the pointer value 100, the
eight bytes after it are unrelated stack contents, and the caller's four
float components occupy the 16 bytes at address 100 (each byte 42). -/
def c7_mem : Nat → Nat := fun i =>
  if i = 0 then 100
  else if i < 16 then 0
  else if 100 ≤ i ∧ i < 116 then 42
  else 0

/-- Two byte ranges `[o1, o1 + s1)` and `[o2, o2 + s2)` occupy disjoint
addresses. -/
def range_disjoint (o1 s1 o2 s2 : Nat) : Prop :=
  o1 + s1 ≤ o2 ∨ o2 + s2 ≤ o1

/-- A plain one-surface layout used to exercise the entry points. -/
def sampleLayout : intel_layout :=
  { bo_stride := 1024, bo_height := 1024, aux := .INTEL_LAYOUT_AUX_NONE,
    aux_stride := 0, aux_height := 0, separate_stencil := false }

/-- A plain 2D description used to exercise the entry points. -/
def sampleInfo : XGL_IMAGE_CREATE_INFO :=
  { imageType := 1, extent_depth := 1, mipLevels := 1, arraySize := 1,
    usage := 0, tiling_is_linear := false, format := 50, samples := 1 }

/-- Creation environment whose layout provider returns `sampleLayout` and
whose allocations all succeed. -/
def sampleEnv : CreateEnv :=
  { info := sampleInfo, scanout := false,
    layout_init := fun _ _ => sampleLayout,
    format_get_class := fun _ => 2,
    base_alloc_ok := true, s8_alloc_ok := true }

/-- A depth-stencil-style layout with both an auxiliary surface and a
separate stencil plane. -/
def dsLayout : intel_layout :=
  { bo_stride := 512, bo_height := 300, aux := .INTEL_LAYOUT_AUX_HIZ,
    aux_stride := 128, aux_height := 100, separate_stencil := true }

/-- The layout the provider reports for the derived `S8_UINT`
description. -/
def s8SampleLayout : intel_layout :=
  { bo_stride := 256, bo_height := 300, aux := .INTEL_LAYOUT_AUX_NONE,
    aux_stride := 0, aux_height := 0, separate_stencil := false }

/-- Creation environment exercising the auxiliary and separate-stencil
paths. -/
def dsEnv : CreateEnv :=
  { info := sampleInfo, scanout := false,
    layout_init := fun i _ =>
      if i.format = XGL_FMT_S8_UINT then s8SampleLayout else dsLayout,
    format_get_class := fun _ => 2,
    base_alloc_ok := true, s8_alloc_ok := true }

/-- A degenerate layout whose packed representation has zero rows. -/
def zeroLayout : intel_layout :=
  { bo_stride := 8, bo_height := 0, aux := .INTEL_LAYOUT_AUX_NONE,
    aux_stride := 0, aux_height := 0, separate_stencil := false }

/-- Creation environment whose layout provider returns `zeroLayout`. -/
def zeroEnv : CreateEnv :=
  { sampleEnv with layout_init := fun _ _ => zeroLayout }

/-- The result of creating an image in `dsEnv`. -/
def dsResult : CreateResult :=
  (intel_img_create dsEnv).toOption.getD
    { status := .XGL_SUCCESS, img_ret := none,
      live_base := false, live_s8 := false }

/-- The image created in `dsEnv`. -/
def dsImg : intel_img := dsResult.img_ret.getD intel_base_create_img

/-- The result of creating an image in `sampleEnv`. -/
def sampleResult : CreateResult :=
  (intel_img_create sampleEnv).toOption.getD
    { status := .XGL_SUCCESS, img_ret := none,
      live_base := false, live_s8 := false }

/-- Identity-shaped layout operations used to exercise the subresource
query. -/
def triv_ops : LayoutOps :=
  { get_slice_pos := fun _ x y => (x, y)
    pos_to_mem := fun _ x y => (x, y)
    mem_to_linear := fun _ _ y => y
    get_slice_size := fun _ m => m
    get_slice_stride := fun _ m => m }

theorem range_disjoint_no_overlap (o1 s1 o2 s2 b : Nat)
    (h : range_disjoint o1 s1 o2 s2) :
    ¬((o1 ≤ b ∧ b < o1 + s1) ∧ (o2 ≤ b ∧ b < o2 + s2)) := by
  unfold range_disjoint at h
  omega

theorem le_u_align_4096 (v : Nat) : v ≤ u_align v 4096 := by
  unfold u_align
  omega

theorem u_align_4096_mod (v : Nat) : u_align v 4096 % 4096 = 0 := by
  unfold u_align
  omega

/-- C5: for every image and every (mip level, array slice), the
subresource-layout query returns rowPitch equal to the primary layout's
`bo_stride`, depthPitch equal to the per-mip slice stride, size equal to
the total per-mip slice size, and offset obtained by mapping the slice
position through the provider's position-to-memory and memory-to-linear
conversions — an offset relative to the primary region's base — and leaves
the image unchanged. -/
theorem subresource_layout_query_fields (ops : LayoutOps) (img : intel_img)
    (mip slice : Nat) :
    xglGetImageSubresourceInfo ops img mip slice
        XGL_INFO_TYPE_SUBRESOURCE_LAYOUT false =
      ({ ret := .XGL_SUCCESS,
         dataSize := some sizeof_XGL_SUBRESOURCE_LAYOUT,
         data := some
           { offset := ops.mem_to_linear img.layout
               (ops.pos_to_mem img.layout
                 (ops.get_slice_pos img.layout mip slice).1
                 (ops.get_slice_pos img.layout mip slice).2).1
               (ops.pos_to_mem img.layout
                 (ops.get_slice_pos img.layout mip slice).1
                 (ops.get_slice_pos img.layout mip slice).2).2,
             size := ops.get_slice_size img.layout mip,
             rowPitch := img.layout.bo_stride,
             depthPitch := ops.get_slice_stride img.layout mip } }, img) := by
  simp [xglGetImageSubresourceInfo]

/-- C6: the generic memory-requirements query reports size equal to the
image's `total_size`, alignment 4096, and memory type buffer-like exactly
when the format class is linear; with a null output buffer it writes only
the required structure size and succeeds. -/
theorem memory_requirements_query (base_get_info : Nat → Bool → InfoQueryOut)
    (img : intel_img) :
    img_get_info base_get_info img XGL_INFO_TYPE_MEMORY_REQUIREMENTS false =
      { ret := .XGL_SUCCESS,
        dataSize := some sizeof_XGL_MEMORY_REQUIREMENTS,
        data := some (.memReq
          { size := img.total_size, alignment := 4096,
            memType :=
              if img.format_class = XGL_IMAGE_FORMAT_CLASS_LINEAR then
                .XGL_MEMORY_TYPE_BUFFER
              else .XGL_MEMORY_TYPE_IMAGE }) } ∧
    img_get_info base_get_info img XGL_INFO_TYPE_MEMORY_REQUIREMENTS true =
      { ret := .XGL_SUCCESS,
        dataSize := some sizeof_XGL_MEMORY_REQUIREMENTS,
        data := none } := by
  constructor <;> simp [img_get_info]

/-- C7 (code bug): in a call frame where the pointer parameter of
`xglSetFastClearColor` sits at address 0 and correctly holds the address
100 of the caller's four components, the call returns success but the 16
bytes it stores into `clear_color` are the bytes at the address of the
pointer variable itself (the source passes `&color` to `memcpy`), not the
caller's components at address 100. -/
theorem setFastClearColor_copies_pointer_bytes :
    le64 c7_mem 0 = 100 ∧
    (xglSetFastClearColor c7_mem 0).1 = .XGL_SUCCESS ∧
    (xglSetFastClearColor c7_mem 0).2 ≠ read_bytes c7_mem 100 16 := by
  decide

/-- C8: for every information-kind selector other than the
subresource-layout kind, `xglGetImageSubresourceInfo` returns
`XGL_ERROR_INVALID_VALUE` and has no side effects: neither the size
pointer nor the output buffer is written, and the image is unchanged. -/
theorem subresource_info_invalid_kind (ops : LayoutOps) (img : intel_img)
    (mip slice infoType : Nat) (null_flag : Bool)
    (h : infoType ≠ XGL_INFO_TYPE_SUBRESOURCE_LAYOUT) :
    xglGetImageSubresourceInfo ops img mip slice infoType null_flag =
      ({ ret := .XGL_ERROR_INVALID_VALUE, dataSize := none,
         data := none }, img) := by
  simp [xglGetImageSubresourceInfo, h]

theorem subresource_info_invalid_kind_witness :
    (7 : Nat) ≠ XGL_INFO_TYPE_SUBRESOURCE_LAYOUT ∧
    xglGetImageSubresourceInfo triv_ops intel_base_create_img 0 0 7 false =
      ({ ret := .XGL_ERROR_INVALID_VALUE, dataSize := none,
         data := none }, intel_base_create_img) :=
  ⟨by decide,
   subresource_info_invalid_kind triv_ops intel_base_create_img 0 0 7 false
     (by decide)⟩

/-- C9: an image without a separate stencil layout is destroyed without
any attempt to free one, and the partial images destroyed on the failure
paths of `intel_img_create` (after initialization, and after the auxiliary
adjustment) carry no stencil layout and a not-shared hand-off state, so
destroying them frees exactly the base object — no double free, no
dangling teardown. -/
theorem destroy_skips_absent_stencil :
    (∀ img : intel_img, img.s8_layout = none →
      (intel_img_destroy img).freed_s8 = false) ∧
    (∀ env : CreateEnv,
      (img_after_init env).s8_layout = none ∧
      intel_img_destroy (img_after_init env) =
        { closed_handoff := false, freed_s8 := false, freed_base := true } ∧
      (img_with_aux env).s8_layout = none ∧
      intel_img_destroy (img_with_aux env) =
        { closed_handoff := false, freed_s8 := false, freed_base := true }) := by
  refine ⟨fun img h => by simp [intel_img_destroy, h], fun env => ?_⟩
  have h2 : (img_with_aux env).s8_layout = none := by
    unfold img_with_aux
    split <;> rfl
  have h3 : (img_with_aux env).x11_prime_fd = -1 := by
    unfold img_with_aux
    split <;> rfl
  refine ⟨rfl, rfl, h2, ?_⟩
  unfold intel_img_destroy
  rw [h2, h3]
  decide

theorem img_with_aux_layout (env : CreateEnv) :
    (img_with_aux env).layout = layout_of env := by
  unfold img_with_aux
  split <;> rfl

theorem img_with_s8_layout (env : CreateEnv) :
    (img_with_s8 env).layout = layout_of env := by
  show (img_with_aux env).layout = layout_of env
  exact img_with_aux_layout env

theorem img_with_aux_s8_fields (env : CreateEnv) :
    (img_with_aux env).s8_layout = none ∧ (img_with_aux env).s8_offset = 0 := by
  unfold img_with_aux
  split <;> exact ⟨rfl, rfl⟩

theorem img_with_aux_total (env : CreateEnv) :
    (img_with_aux env).total_size =
      (if (layout_of env).aux ≠ .INTEL_LAYOUT_AUX_NONE then
        u_align ((layout_of env).bo_stride * (layout_of env).bo_height) 4096 +
          (layout_of env).aux_stride * (layout_of env).aux_height
      else (layout_of env).bo_stride * (layout_of env).bo_height) ∧
    (img_with_aux env).aux_offset =
      (if (layout_of env).aux ≠ .INTEL_LAYOUT_AUX_NONE then
        u_align ((layout_of env).bo_stride * (layout_of env).bo_height) 4096
      else 0) := by
  unfold img_with_aux
  split <;> exact ⟨rfl, rfl⟩

/-- Inversion of a successful `intel_img_create`: the guards that must have
passed and the exact image stored through `img_ret`. -/
theorem create_ok_inv (env : CreateEnv) (r : CreateResult) (i : intel_img)
    (h : intel_img_create env = Except.ok r) (hi : r.img_ret = some i) :
    env.base_alloc_ok = true ∧
    (layout_of env).bo_height ≠ 0 ∧
    (layout_of env).bo_stride ≤
      intel_max_resource_size / (layout_of env).bo_height ∧
    r.status = XGL_RESULT.XGL_SUCCESS ∧
    ((layout_of env).separate_stencil = true → i = img_with_s8 env) ∧
    ((layout_of env).separate_stencil = false → i = img_with_aux env) := by
  unfold intel_img_create at h
  split_ifs at h with h1 h2 h3 h4 h5
  · injection h with h
    subst h
    exact Option.noConfusion hi
  · injection h with h
    subst h
    exact Option.noConfusion hi
  · injection h with h
    subst h
    exact Option.noConfusion hi
  · injection h with h
    subst h
    have hii : img_with_s8 env = i := Option.some.inj hi
    refine ⟨by simpa using h1, h2, by omega, rfl, fun _ => hii.symm, fun hf => ?_⟩
    rw [h4] at hf
    exact Bool.noConfusion hf
  · injection h with h
    subst h
    have hii : img_with_aux env = i := Option.some.inj hi
    exact ⟨by simpa using h1, h2, by omega, rfl, fun ht => absurd ht h4,
      fun _ => hii.symm⟩

/-- C1: with a derived primary layout of height at least 1 (and the base
allocation succeeding), `intel_img_create` fails with
`XGL_ERROR_INVALID_MEMORY_SIZE` exactly when `bo_stride >
intel_max_resource_size / bo_height`; that division-based test is exactly
the exact-arithmetic comparison `bo_stride * bo_height > 2^31`; and every
successfully created image satisfies `bo_stride * bo_height <= 2^31`, so
the 32-bit multiplication computing `total_size` does not overflow. -/
theorem capacity_check_division_exact (env : CreateEnv)
    (hbase : env.base_alloc_ok = true)
    (hpos : 1 ≤ (layout_of env).bo_height) :
    ((∃ r, intel_img_create env = Except.ok r ∧
        r.status = XGL_RESULT.XGL_ERROR_INVALID_MEMORY_SIZE) ↔
      intel_max_resource_size / (layout_of env).bo_height <
        (layout_of env).bo_stride) ∧
    (intel_max_resource_size / (layout_of env).bo_height <
        (layout_of env).bo_stride ↔
      2 ^ 31 < (layout_of env).bo_stride * (layout_of env).bo_height) ∧
    (∀ r i, intel_img_create env = Except.ok r → r.img_ret = some i →
      i.layout.bo_stride * i.layout.bo_height ≤ 2 ^ 31 ∧
      i.layout.bo_stride * i.layout.bo_height % 2 ^ 32 =
        i.layout.bo_stride * i.layout.bo_height) := by
  have hdiv : intel_max_resource_size / (layout_of env).bo_height <
      (layout_of env).bo_stride ↔
      intel_max_resource_size <
        (layout_of env).bo_stride * (layout_of env).bo_height :=
    Nat.div_lt_iff_lt_mul (by omega)
  refine ⟨⟨?_, ?_⟩, by simpa [intel_max_resource_size] using hdiv, ?_⟩
  · rintro ⟨r, hr, hst⟩
    unfold intel_img_create at hr
    split_ifs at hr with h1 h2 h3 h4 h5
    · injection hr with hr
      subst hr
      exact absurd hst (by simp)
    · exact h3
    · injection hr with hr
      subst hr
      exact absurd hst (by simp)
    · injection hr with hr
      subst hr
      exact absurd hst (by simp)
    · injection hr with hr
      subst hr
      exact absurd hst (by simp)
  · intro hlt
    refine ⟨{ status := .XGL_ERROR_INVALID_MEMORY_SIZE, img_ret := none,
              live_base := !(intel_img_destroy (img_after_init env)).freed_base,
              live_s8 := false }, ?_, rfl⟩
    unfold intel_img_create
    rw [if_neg (by simp [hbase]), if_neg (by omega), if_pos hlt]
  · intro r i hr hii
    obtain ⟨-, -, hle, -, hs8, haux⟩ := create_ok_inv env r i hr hii
    have hlay : i.layout = layout_of env := by
      cases hsep : (layout_of env).separate_stencil with
      | true => rw [hs8 hsep]; exact img_with_s8_layout env
      | false => rw [haux hsep]; exact img_with_aux_layout env
    have hmul : i.layout.bo_stride * i.layout.bo_height ≤ 2 ^ 31 := by
      rw [hlay]
      have := (Nat.le_div_iff_mul_le (k := (layout_of env).bo_height)
        (by omega)).mp hle
      simpa [intel_max_resource_size] using this
    exact ⟨hmul, Nat.mod_eq_of_lt (by omega)⟩

theorem capacity_check_division_exact_witness :
    sampleEnv.base_alloc_ok = true ∧ 1 ≤ (layout_of sampleEnv).bo_height ∧
    (intel_max_resource_size / (layout_of sampleEnv).bo_height <
        (layout_of sampleEnv).bo_stride ↔
      2 ^ 31 < (layout_of sampleEnv).bo_stride *
        (layout_of sampleEnv).bo_height) :=
  ⟨rfl, by decide,
   (capacity_check_division_exact sampleEnv rfl (by decide)).2.1⟩

/-- C10: the capacity check divides `intel_max_resource_size` by the
derived layout's `bo_height` with no zero guard: when the base allocation
succeeds, a derived layout with `bo_height = 0` drives the call into the
division-by-zero error before any capacity decision or status is produced,
while any layout with `bo_height >= 1` lets the call run to a defined
result. -/
theorem capacity_check_div_by_zero (env : CreateEnv)
    (hbase : env.base_alloc_ok = true) :
    ((layout_of env).bo_height = 0 →
      intel_img_create env = Except.error ()) ∧
    (1 ≤ (layout_of env).bo_height →
      ∃ r, intel_img_create env = Except.ok r) := by
  constructor
  · intro h0
    unfold intel_img_create
    rw [if_neg (by simp [hbase]), if_pos h0]
  · intro hpos
    unfold intel_img_create
    rw [if_neg (by simp [hbase]), if_neg (by omega)]
    split_ifs <;> exact ⟨_, rfl⟩

theorem capacity_check_div_by_zero_witness :
    zeroEnv.base_alloc_ok = true ∧
    (layout_of zeroEnv).bo_height = 0 ∧
    intel_img_create zeroEnv = Except.error () :=
  ⟨rfl, rfl, (capacity_check_div_by_zero zeroEnv rfl).1 rfl⟩

/-- C2: on success `total_size` is computed in the fixed order primary,
then auxiliary, then stencil: it starts as `bo_stride * bo_height` of the
primary layout; if an auxiliary region is present, `aux_offset` is that
size aligned up to 4096 and the total becomes `aux_offset + aux_stride *
aux_height`; if a separate stencil plane is present, `s8_offset` is the
aux-adjusted total aligned up to 4096 and the final total is `s8_offset`
plus the stencil layout's `bo_stride * bo_height`; with neither region the
total is exactly the primary product. -/
theorem total_size_fixed_order (env : CreateEnv) (r : CreateResult)
    (i : intel_img) (h : intel_img_create env = Except.ok r)
    (hi : r.img_ret = some i) :
    i.layout = layout_of env ∧
    ((layout_of env).aux ≠ .INTEL_LAYOUT_AUX_NONE →
      i.aux_offset =
        u_align ((layout_of env).bo_stride * (layout_of env).bo_height)
          4096) ∧
    ((layout_of env).separate_stencil = true →
      i.s8_layout = some (s8_layout_of env) ∧
      i.s8_offset = u_align
        (if (layout_of env).aux ≠ .INTEL_LAYOUT_AUX_NONE then
          u_align ((layout_of env).bo_stride * (layout_of env).bo_height)
            4096 + (layout_of env).aux_stride * (layout_of env).aux_height
        else (layout_of env).bo_stride * (layout_of env).bo_height) 4096 ∧
      i.total_size = i.s8_offset +
        (s8_layout_of env).bo_stride * (s8_layout_of env).bo_height) ∧
    ((layout_of env).separate_stencil = false →
      i.s8_layout = none ∧
      i.total_size =
        (if (layout_of env).aux ≠ .INTEL_LAYOUT_AUX_NONE then
          u_align ((layout_of env).bo_stride * (layout_of env).bo_height)
            4096 + (layout_of env).aux_stride * (layout_of env).aux_height
        else (layout_of env).bo_stride * (layout_of env).bo_height)) ∧
    ((layout_of env).aux = .INTEL_LAYOUT_AUX_NONE ∧
        (layout_of env).separate_stencil = false →
      i.total_size =
        (layout_of env).bo_stride * (layout_of env).bo_height) := by
  obtain ⟨-, -, -, -, hs8, hauxq⟩ := create_ok_inv env r i h hi
  cases hsep : (layout_of env).separate_stencil with
  | true =>
    have hieq := hs8 hsep
    subst hieq
    refine ⟨img_with_s8_layout env, ?_, ?_, ?_, ?_⟩
    · intro hax
      show (img_with_aux env).aux_offset = _
      rw [(img_with_aux_total env).2, if_pos hax]
    · intro _
      refine ⟨rfl, ?_, rfl⟩
      show u_align (img_with_aux env).total_size 4096 = _
      rw [(img_with_aux_total env).1]
    · intro hf
      exact Bool.noConfusion hf
    · rintro ⟨-, hf⟩
      exact Bool.noConfusion hf
  | false =>
    have hieq := hauxq hsep
    subst hieq
    refine ⟨img_with_aux_layout env, ?_, ?_, ?_, ?_⟩
    · intro hax
      rw [(img_with_aux_total env).2, if_pos hax]
    · intro ht
      exact Bool.noConfusion ht
    · intro _
      exact ⟨(img_with_aux_s8_fields env).1, (img_with_aux_total env).1⟩
    · rintro ⟨hax, -⟩
      rw [(img_with_aux_total env).1, if_neg (by simp [hax])]

theorem total_size_fixed_order_witness :
    intel_img_create dsEnv = Except.ok dsResult ∧
    dsResult.img_ret = some dsImg ∧
    dsImg.layout = layout_of dsEnv :=
  ⟨rfl, rfl, (total_size_fixed_order dsEnv dsResult dsImg rfl rfl).1⟩

/-- C3: on success every present region starts 4096-aligned (the primary
base being 0), the auxiliary offset is at least the primary size it was
aligned up from, the stencil offset is at least the end of the
aux-adjusted size, and the primary, auxiliary and stencil byte ranges are
pairwise disjoint. -/
theorem region_offsets_aligned_disjoint (env : CreateEnv)
    (r : CreateResult) (i : intel_img)
    (h : intel_img_create env = Except.ok r) (hi : r.img_ret = some i) :
    ((layout_of env).aux ≠ .INTEL_LAYOUT_AUX_NONE →
      i.aux_offset % 4096 = 0 ∧
      (layout_of env).bo_stride * (layout_of env).bo_height ≤
        i.aux_offset) ∧
    ((layout_of env).separate_stencil = true →
      i.s8_offset % 4096 = 0 ∧
      (if (layout_of env).aux ≠ .INTEL_LAYOUT_AUX_NONE then
        i.aux_offset + (layout_of env).aux_stride * (layout_of env).aux_height
      else (layout_of env).bo_stride * (layout_of env).bo_height) ≤
        i.s8_offset) ∧
    ((layout_of env).aux ≠ .INTEL_LAYOUT_AUX_NONE →
      range_disjoint 0
        ((layout_of env).bo_stride * (layout_of env).bo_height)
        i.aux_offset
        ((layout_of env).aux_stride * (layout_of env).aux_height)) ∧
    ((layout_of env).separate_stencil = true →
      range_disjoint 0
        ((layout_of env).bo_stride * (layout_of env).bo_height)
        i.s8_offset
        ((s8_layout_of env).bo_stride * (s8_layout_of env).bo_height)) ∧
    ((layout_of env).aux ≠ .INTEL_LAYOUT_AUX_NONE →
      (layout_of env).separate_stencil = true →
      range_disjoint i.aux_offset
        ((layout_of env).aux_stride * (layout_of env).aux_height)
        i.s8_offset
        ((s8_layout_of env).bo_stride * (s8_layout_of env).bo_height)) := by
  obtain ⟨-, -, -, -, hs8, hauxq⟩ := create_ok_inv env r i h hi
  cases hsep : (layout_of env).separate_stencil with
  | true =>
    have hieq := hs8 hsep
    subst hieq
    by_cases hax : (layout_of env).aux = .INTEL_LAYOUT_AUX_NONE
    · have hne : ¬((layout_of env).aux ≠ .INTEL_LAYOUT_AUX_NONE) :=
        not_not_intro hax
      have ho : (img_with_s8 env).s8_offset =
          u_align ((layout_of env).bo_stride * (layout_of env).bo_height)
            4096 := by
        show u_align (img_with_aux env).total_size 4096 = _
        rw [(img_with_aux_total env).1, if_neg hne]
      have hge := le_u_align_4096
        ((layout_of env).bo_stride * (layout_of env).bo_height)
      have hmod := u_align_4096_mod
        ((layout_of env).bo_stride * (layout_of env).bo_height)
      refine ⟨fun hc => absurd hax hc,
        fun _ => ⟨by rw [ho]; exact hmod, by rw [if_neg hne, ho]; exact hge⟩,
        fun hc => absurd hax hc, fun _ => ?_, fun hc _ => absurd hax hc⟩
      rw [ho]
      unfold range_disjoint
      omega
    · have haux_off : (img_with_s8 env).aux_offset =
          u_align ((layout_of env).bo_stride * (layout_of env).bo_height)
            4096 := by
        show (img_with_aux env).aux_offset = _
        rw [(img_with_aux_total env).2, if_pos hax]
      have htot : (img_with_aux env).total_size =
          u_align ((layout_of env).bo_stride * (layout_of env).bo_height)
            4096 + (layout_of env).aux_stride * (layout_of env).aux_height :=
        by rw [(img_with_aux_total env).1, if_pos hax]
      have hs8off : (img_with_s8 env).s8_offset =
          u_align
            (u_align ((layout_of env).bo_stride * (layout_of env).bo_height)
              4096 + (layout_of env).aux_stride * (layout_of env).aux_height)
            4096 := by
        show u_align (img_with_aux env).total_size 4096 = _
        rw [htot]
      have g1 := le_u_align_4096
        ((layout_of env).bo_stride * (layout_of env).bo_height)
      have g2 := le_u_align_4096
        (u_align ((layout_of env).bo_stride * (layout_of env).bo_height)
          4096 + (layout_of env).aux_stride * (layout_of env).aux_height)
      have m1 := u_align_4096_mod
        ((layout_of env).bo_stride * (layout_of env).bo_height)
      have m2 := u_align_4096_mod
        (u_align ((layout_of env).bo_stride * (layout_of env).bo_height)
          4096 + (layout_of env).aux_stride * (layout_of env).aux_height)
      refine ⟨fun _ => ⟨by rw [haux_off]; exact m1,
          by rw [haux_off]; exact g1⟩,
        fun _ => ⟨by rw [hs8off]; exact m2, ?_⟩,
        fun _ => ?_, fun _ => ?_, fun _ _ => ?_⟩
      · rw [if_pos hax, haux_off, hs8off]
        exact g2
      · unfold range_disjoint
        rw [haux_off]
        omega
      · unfold range_disjoint
        rw [hs8off]
        omega
      · unfold range_disjoint
        rw [haux_off, hs8off]
        omega
  | false =>
    have hieq := hauxq hsep
    subst hieq
    by_cases hax : (layout_of env).aux = .INTEL_LAYOUT_AUX_NONE
    · exact ⟨fun hc => absurd hax hc, fun ht => Bool.noConfusion ht,
        fun hc => absurd hax hc, fun ht => Bool.noConfusion ht,
        fun hc ht => Bool.noConfusion ht⟩
    · have haux_off : (img_with_aux env).aux_offset =
          u_align ((layout_of env).bo_stride * (layout_of env).bo_height)
            4096 := by
        rw [(img_with_aux_total env).2, if_pos hax]
      have g1 := le_u_align_4096
        ((layout_of env).bo_stride * (layout_of env).bo_height)
      have m1 := u_align_4096_mod
        ((layout_of env).bo_stride * (layout_of env).bo_height)
      refine ⟨fun _ => ⟨by rw [haux_off]; exact m1,
          by rw [haux_off]; exact g1⟩,
        fun ht => Bool.noConfusion ht, fun _ => ?_,
        fun ht => Bool.noConfusion ht, fun _ ht => Bool.noConfusion ht⟩
      unfold range_disjoint
      rw [haux_off]
      omega

theorem region_offsets_aligned_disjoint_witness :
    intel_img_create dsEnv = Except.ok dsResult ∧
    dsResult.img_ret = some dsImg ∧
    (layout_of dsEnv).aux ≠ .INTEL_LAYOUT_AUX_NONE ∧
    dsImg.aux_offset % 4096 = 0 ∧
    (layout_of dsEnv).bo_stride * (layout_of dsEnv).bo_height ≤
      dsImg.aux_offset :=
  ⟨rfl, rfl, by decide,
   ((region_offsets_aligned_disjoint dsEnv dsResult dsImg rfl rfl).1
     (by decide)).1,
   ((region_offsets_aligned_disjoint dsEnv dsResult dsImg rfl rfl).1
     (by decide)).2⟩

theorem img_with_aux_info_fields (env : CreateEnv) :
    (img_with_aux env).type = env.info.imageType ∧
    (img_with_aux env).depth = env.info.extent_depth ∧
    (img_with_aux env).mip_levels = env.info.mipLevels ∧
    (img_with_aux env).array_size = env.info.arraySize ∧
    (img_with_aux env).usage = env.info.usage ∧
    (img_with_aux env).samples = env.info.samples := by
  unfold img_with_aux
  split <;> exact ⟨rfl, rfl, rfl, rfl, rfl, rfl⟩

/-- C4: `intel_img_create` is atomic — it either returns `XGL_SUCCESS`
having stored a populated image through `img_ret`, or it returns
`XGL_ERROR_OUT_OF_MEMORY` (only when the base object or the lazily
allocated stencil-layout storage cannot be allocated) or
`XGL_ERROR_INVALID_MEMORY_SIZE` (only on the capacity violation) with
`img_ret` unwritten and neither of its allocations left live. -/
theorem create_atomic (env : CreateEnv) (r : CreateResult)
    (h : intel_img_create env = Except.ok r) :
    (r.status = .XGL_SUCCESS ∨ r.status = .XGL_ERROR_OUT_OF_MEMORY ∨
      r.status = .XGL_ERROR_INVALID_MEMORY_SIZE) ∧
    (r.status = .XGL_SUCCESS →
      r.img_ret.isSome = true ∧ r.live_base = true ∧
      (∀ i, r.img_ret = some i →
        i.type = env.info.imageType ∧ i.depth = env.info.extent_depth ∧
        i.mip_levels = env.info.mipLevels ∧
        i.array_size = env.info.arraySize ∧ i.usage = env.info.usage ∧
        i.samples = env.info.samples ∧ i.layout = layout_of env)) ∧
    (r.status ≠ .XGL_SUCCESS →
      r.img_ret = none ∧ r.live_base = false ∧ r.live_s8 = false) ∧
    (r.status = .XGL_ERROR_OUT_OF_MEMORY →
      env.base_alloc_ok = false ∨ env.s8_alloc_ok = false) ∧
    (r.status = .XGL_ERROR_INVALID_MEMORY_SIZE →
      intel_max_resource_size / (layout_of env).bo_height <
        (layout_of env).bo_stride) := by
  unfold intel_img_create at h
  split_ifs at h with h1 h2 h3 h4 h5
  · injection h with h
    subst h
    exact ⟨Or.inr (Or.inl rfl), fun hs => XGL_RESULT.noConfusion hs,
      fun _ => ⟨rfl, rfl, rfl⟩, fun _ => Or.inl h1,
      fun hs => XGL_RESULT.noConfusion hs⟩
  · injection h with h
    subst h
    exact ⟨Or.inr (Or.inr rfl), fun hs => XGL_RESULT.noConfusion hs,
      fun _ => ⟨rfl, rfl, rfl⟩, fun hs => XGL_RESULT.noConfusion hs,
      fun _ => h3⟩
  · injection h with h
    subst h
    exact ⟨Or.inr (Or.inl rfl), fun hs => XGL_RESULT.noConfusion hs,
      fun _ => ⟨rfl, rfl, rfl⟩, fun _ => Or.inr h5,
      fun hs => XGL_RESULT.noConfusion hs⟩
  · injection h with h
    subst h
    refine ⟨Or.inl rfl, fun _ => ⟨rfl, rfl, ?_⟩,
      fun hs => absurd rfl hs, fun hs => XGL_RESULT.noConfusion hs,
      fun hs => XGL_RESULT.noConfusion hs⟩
    intro i hi
    have hii := Option.some.inj hi
    subst hii
    obtain ⟨f1, f2, f3, f4, f5, f6⟩ := img_with_aux_info_fields env
    exact ⟨f1, f2, f3, f4, f5, f6, img_with_s8_layout env⟩
  · injection h with h
    subst h
    refine ⟨Or.inl rfl, fun _ => ⟨rfl, rfl, ?_⟩,
      fun hs => absurd rfl hs, fun hs => XGL_RESULT.noConfusion hs,
      fun hs => XGL_RESULT.noConfusion hs⟩
    intro i hi
    have hii := Option.some.inj hi
    subst hii
    obtain ⟨f1, f2, f3, f4, f5, f6⟩ := img_with_aux_info_fields env
    exact ⟨f1, f2, f3, f4, f5, f6, img_with_aux_layout env⟩

theorem create_atomic_witness :
    intel_img_create sampleEnv = Except.ok sampleResult ∧
    (sampleResult.status = .XGL_SUCCESS ∨
      sampleResult.status = .XGL_ERROR_OUT_OF_MEMORY ∨
      sampleResult.status = .XGL_ERROR_INVALID_MEMORY_SIZE) :=
  ⟨rfl, (create_atomic sampleEnv sampleResult rfl).1⟩
